import Mathlib

/-!
Verification of the Telegram channel export tool (`telegram_export_md.py`)
against its specification.

The development shallowly embeds the program:

* `parse_channel_identifier` embeds the Python function of the same name
  (string trimming, the `https?://t\.me/(.+)` regular-expression match,
  the leading-`@` rule);
* `ensure_joined` embeds the membership resolver with its swallowed join
  failures;
* `export_channel_messages` embeds the export pipeline: credential check,
  parent-directory creation, client connection, entity resolution, the
  progressive write loop over the message stream, and its observable
  side effects (file contents, sink lifecycle, final count).

Strings are modelled by Lean `String` (a wrapper around `List Char`);
Python truthiness of optional strings is made explicit.
-/

namespace TelegramExport

/-- The characters removed by Python's `str.strip()`: exactly those for
which `str.isspace()` holds, i.e. U+0009..U+000D, U+001C..U+001F, space,
U+0085 (next line), U+00A0 (no-break space), U+1680 (Ogham space mark),
U+2000..U+200A (typographic spaces), U+2028 (line separator), U+2029
(paragraph separator), U+202F (narrow no-break space), U+205F (medium
mathematical space) and U+3000 (ideographic space). -/
def pyIsSpace (c : Char) : Bool :=
  (0x09 ≤ c.toNat && c.toNat ≤ 0x0d) || c.toNat == 0x20 ||
  (0x1c ≤ c.toNat && c.toNat ≤ 0x1f) || c.toNat == 0x85 || c.toNat == 0xa0 ||
  c.toNat == 0x1680 || (0x2000 ≤ c.toNat && c.toNat ≤ 0x200a) ||
  c.toNat == 0x2028 || c.toNat == 0x2029 || c.toNat == 0x202f ||
  c.toNat == 0x205f || c.toNat == 0x3000

/-- `str.strip()` on the character list: remove leading and trailing
whitespace. -/
def pyStripL (l : List Char) : List Char :=
  ((l.dropWhile pyIsSpace).reverse.dropWhile pyIsSpace).reverse

/-- `str.strip()` at the string level. -/
def pyStrip (s : String) : String :=
  String.mk (pyStripL s.data)

/-- One alternative of the regular expression `https?://t\.me/(.+)`,
anchored at the start (`re.match`): if `pre` (one of the two concrete
scheme prefixes) heads `raw`, capture the maximal nonempty run of
non-newline characters that follows; otherwise no match.  `.` in Python
regular expressions matches any character except `'\n'`, and `+` demands
at least one. -/
def tmeAlt (pre raw : List Char) : Option (List Char) :=
  if pre.isPrefixOf raw then
    let grp := (raw.drop pre.length).takeWhile (fun c => !(c == '\n'))
    if grp.isEmpty then none else some grp
  else none

/-- `re.match(r"https?://t\.me/(.+)", raw)`: the `s` in `https?` is tried
greedily first, then the engine backtracks to the bare `http` scheme. -/
def tmeMatchL (raw : List Char) : Option (List Char) :=
  match tmeAlt "https://t.me/".data raw with
  | some g => some g
  | none => tmeAlt "http://t.me/".data raw

/-- `parse_channel_identifier` on character lists: strip (`raw =
raw.strip()` rebinds, so every later use sees the stripped string); if
the regular expression matches, return the captured group; else if
`raw.startswith("@")` (the first character is `@`), return `raw[1:]`
(drop one character); else return the trimmed string unchanged. -/
def parseChannelIdentifierL (raw : List Char) : List Char :=
  let r := pyStripL raw
  match tmeMatchL r with
  | some g => g
  | none => if r.head? == some '@' then r.drop 1 else r

/-- The Python function `parse_channel_identifier`. -/
def parse_channel_identifier (raw : String) : String :=
  String.mk (parseChannelIdentifierL raw.data)

example : parse_channel_identifier "exampleChan" = "exampleChan" := by decide
example : parse_channel_identifier "@exampleChan" = "exampleChan" := by decide
example : parse_channel_identifier "https://t.me/exampleChan" = "exampleChan" := by decide
example : parse_channel_identifier "http://t.me/exampleChan" = "exampleChan" := by decide
example : parse_channel_identifier "  name \t" = "name" := by decide
example : parse_channel_identifier "@@x" = "@x" := by decide
example : parse_channel_identifier "https://t.me/@x" = "@x" := by decide
example : parse_channel_identifier "@x" = "x" := by decide

/-- A message from the provider, as the pipeline reads it: integer id,
the `isoformat()` rendering of its date, the primary body (`msg.message`,
`None` or a string) and the optional caption (`getattr(msg, "caption",
None)`, which is `none` both when the attribute is absent and when it is
`None`). -/
structure Message where
  id : Int
  date : String
  body : Option String
  caption : Option String
deriving DecidableEq, Repr

/-- The per-message text extraction of the export loop:
`text = msg.message or ""`; if falsy, `if getattr(msg, "caption", None):
text = msg.caption or ""` (the guard is Python truthiness, so an absent,
`None` or empty caption leaves `text` empty). -/
def messageText (m : Message) : String :=
  let text := m.body.getD ""
  if text == "" then
    match m.caption with
    | none => text
    | some c => if c == "" then text else c
  else text

/-- A message passes the `if not text: continue` filter exactly when its
extracted text is nonempty. -/
def exportable (m : Message) : Bool :=
  !(messageText m == "")

/-- The metadata line `f"[id:{msg.id} | date:{msg.date.isoformat()}]"`. -/
def metaLine (m : Message) : String :=
  "[id:" ++ toString m.id ++ " | date:" ++ m.date ++ "]"

/-- Everything the loop writes for one exported message: the optional
metadata line with its newline, the text, the separator. -/
def record (include_meta : Bool) (separator : String) (m : Message) : String :=
  (if include_meta then metaLine m ++ "\n" else "") ++ messageText m ++ separator

/-- The file contents a finite message list produces: one `record` per
exportable message, concatenated in stream order. -/
def renderAll (include_meta : Bool) (separator : String) (msgs : List Message) : String :=
  String.join ((msgs.filter exportable).map (record include_meta separator))

/-- One event of the history stream: either the next message, or the
point at which `iter_messages` raises (transport failure, provider
error, revoked access mid-stream). -/
inductive StreamItem where
  | msg (m : Message)
  | fail (e : String)
deriving DecidableEq, Repr

/-- The `async for` write loop of `export_channel_messages`, starting
from already-written contents and an already-reached count.  Returns the
final file contents, the final count, and the streaming error if the
stream raised. -/
def runLoop (include_meta : Bool) (separator : String) :
    List StreamItem → String → Nat → String × Nat × Option String
  | [], contents, count => (contents, count, none)
  | .fail e :: _, contents, count => (contents, count, some e)
  | .msg m :: rest, contents, count =>
    let text := messageText m
    if text == "" then
      runLoop include_meta separator rest contents count
    else
      let contents := if include_meta then contents ++ metaLine m ++ "\n" else contents
      runLoop include_meta separator rest (contents ++ text ++ separator) (count + 1)

/-- The join attempt's outcome at the provider: success,
`UserAlreadyParticipantError`, or any other exception. -/
inductive JoinOutcome where
  | joined
  | alreadyParticipant
  | failure (e : String)
deriving DecidableEq, Repr

/-- The authenticated client capability, over an opaque entity type `E`:
entity lookup (which may fail), the outcome a join attempt would have,
and the oldest-to-newest history stream `iter_messages(entity,
reverse=True)` would yield. -/
structure Client (E : Type) where
  getEntity : String → Except String E
  joinResult : E → JoinOutcome
  history : E → List StreamItem

/-- The Python coroutine `ensure_joined`: resolve the entity (errors
propagate), then, when `try_join` is set, attempt the join and swallow
both `UserAlreadyParticipantError` and every other exception. -/
def ensure_joined {E : Type} (client : Client E) (channel : String)
    (try_join : Bool) : Except String E :=
  match client.getEntity channel with
  | .error e => .error e
  | .ok entity =>
    if try_join then
      match client.joinResult entity with
      | .joined => .ok entity
      | .alreadyParticipant => .ok entity
      | .failure _ => .ok entity
    else .ok entity

/-- The environment variables the pipeline reads:
`int(os.environ.get("TELEGRAM_API_ID", "0"))` and
`os.environ.get("TELEGRAM_API_HASH")` (which may be unset, or set to any
string including the empty one). -/
structure Env where
  apiId : Int
  apiHash : Option String
deriving DecidableEq, Repr

/-- The `if not api_id or not api_hash` credential check: `api_id` is
falsy exactly when it is `0`, `api_hash` exactly when it is `None` or
`""`. -/
def configMissing (env : Env) : Bool :=
  env.apiId == 0 || env.apiHash.getD "" == ""

/-- The error a run terminates with. -/
inductive ExportError where
  | configError
  | resolutionError (e : String)
  | streamError (e : String)
deriving DecidableEq, Repr

/-- The observable outcome of one run of `export_channel_messages`:
the returned count or raised error, and the side effects in program
order — parent-directory creation, network activity (client
connection), sink creation (opening the output file truncates it), the
final file contents (`none` when the file was never opened), and
whether the `with` block closed the sink. -/
structure RunResult where
  outcome : Except ExportError Nat
  mkdirDone : Bool
  networkActivity : Bool
  sinkOpened : Bool
  file : Option String
  sinkClosed : Bool
deriving Repr

/-- The Python coroutine `export_channel_messages`: credential check
(raising `SystemExit` before any directory, network or file activity),
identifier normalization, parent-directory creation, client connection,
entity resolution via `ensure_joined` (failure propagates before the
output file is opened), then the progressive write loop inside
`with output_path.open("w")`, which truncates the file on entry and
closes it on every exit path. -/
def export_channel_messages {E : Type} (env : Env) (client : Client E)
    (channel : String) (separator : String) (include_meta : Bool)
    (try_join : Bool) : RunResult :=
  if configMissing env then
    ⟨.error .configError, false, false, false, none, false⟩
  else
    let channel_norm := parse_channel_identifier channel
    match ensure_joined client channel_norm try_join with
    | .error e =>
      ⟨.error (.resolutionError e), true, true, false, none, false⟩
    | .ok entity =>
      match runLoop include_meta separator (client.history entity) "" 0 with
      | (contents, count, none) =>
        ⟨.ok count, true, true, true, some contents, true⟩
      | (contents, _, some e) =>
        ⟨.error (.streamError e), true, true, true, some contents, true⟩

theorem join_cons (s : String) (l : List String) :
    String.join (s :: l) = s ++ String.join l := by
  apply String.ext
  simp

theorem renderAll_nil (im : Bool) (sep : String) : renderAll im sep [] = "" := rfl

theorem renderAll_cons_skip {m : Message} (h : exportable m = false)
    (im : Bool) (sep : String) (rest : List Message) :
    renderAll im sep (m :: rest) = renderAll im sep rest := by
  simp [renderAll, h]

theorem renderAll_cons_keep {m : Message} (h : exportable m = true)
    (im : Bool) (sep : String) (rest : List Message) :
    renderAll im sep (m :: rest) = record im sep m ++ renderAll im sep rest := by
  simp [renderAll, h, join_cons]

theorem exportable_iff (m : Message) :
    exportable m = true ↔
      m.body.getD "" ≠ "" ∨ ∃ c, m.caption = some c ∧ c ≠ "" := by
  unfold exportable messageText
  cases hc : m.caption with
  | none =>
    by_cases hb : m.body.getD "" = "" <;> simp [hb]
  | some c =>
    by_cases hb : m.body.getD "" = "" <;> by_cases hcc : c = "" <;>
      simp [hb, hcc]

theorem runLoop_cons_skip {m : Message} (h : messageText m = "")
    (im : Bool) (sep : String) (items : List StreamItem)
    (contents : String) (count : Nat) :
    runLoop im sep (.msg m :: items) contents count =
      runLoop im sep items contents count := by
  simp [runLoop, h]

theorem runLoop_cons_keep {m : Message} (h : ¬ messageText m = "")
    (im : Bool) (sep : String) (items : List StreamItem)
    (contents : String) (count : Nat) :
    runLoop im sep (.msg m :: items) contents count =
      runLoop im sep items (contents ++ record im sep m) (count + 1) := by
  cases im <;> simp [runLoop, h, record, String.append_assoc]

theorem runLoop_msgs (im : Bool) (sep : String) (msgs : List Message) :
    ∀ (contents : String) (count : Nat),
      runLoop im sep (msgs.map .msg) contents count =
        (contents ++ renderAll im sep msgs,
         count + (msgs.filter exportable).length, none) := by
  induction msgs with
  | nil => intro contents count; simp [runLoop, renderAll_nil]
  | cons m rest ih =>
    intro contents count
    by_cases h : messageText m = ""
    · have hex : exportable m = false := by simp [exportable, h]
      rw [List.map_cons, runLoop_cons_skip h, ih, renderAll_cons_skip hex,
        List.filter_cons_of_neg (by simp [hex])]
    · have hex : exportable m = true := by simp [exportable, h]
      rw [List.map_cons, runLoop_cons_keep h, ih, renderAll_cons_keep hex,
        List.filter_cons_of_pos hex]
      simp only [Prod.mk.injEq, List.length_cons]
      refine ⟨by rw [String.append_assoc], by omega, trivial⟩

theorem runLoop_fail (im : Bool) (sep : String) (msgs : List Message)
    (e : String) (rest : List StreamItem) :
    ∀ (contents : String) (count : Nat),
      runLoop im sep (msgs.map .msg ++ .fail e :: rest) contents count =
        (contents ++ renderAll im sep msgs,
         count + (msgs.filter exportable).length, some e) := by
  induction msgs with
  | nil => intro contents count; simp [runLoop, renderAll_nil]
  | cons m rest' ih =>
    intro contents count
    by_cases h : messageText m = ""
    · have hex : exportable m = false := by simp [exportable, h]
      rw [List.map_cons, List.cons_append, runLoop_cons_skip h, ih,
        renderAll_cons_skip hex, List.filter_cons_of_neg (by simp [hex])]
    · have hex : exportable m = true := by simp [exportable, h]
      rw [List.map_cons, List.cons_append, runLoop_cons_keep h, ih,
        renderAll_cons_keep hex, List.filter_cons_of_pos hex]
      simp only [Prod.mk.injEq, List.length_cons]
      refine ⟨by rw [String.append_assoc], by omega, trivial⟩

theorem export_config_missing {E : Type} (env : Env) (client : Client E)
    (channel separator : String) (include_meta try_join : Bool)
    (h : configMissing env = true) :
    export_channel_messages env client channel separator include_meta try_join =
      ⟨.error .configError, false, false, false, none, false⟩ := by
  simp [export_channel_messages, h]

theorem export_resolution_error {E : Type} (env : Env) (client : Client E)
    (channel separator : String) (include_meta try_join : Bool) (e : String)
    (henv : configMissing env = false)
    (hres : ensure_joined client (parse_channel_identifier channel) try_join = .error e) :
    export_channel_messages env client channel separator include_meta try_join =
      ⟨.error (.resolutionError e), true, true, false, none, false⟩ := by
  simp [export_channel_messages, henv, hres]

theorem export_ok {E : Type} (env : Env) (client : Client E)
    (channel separator : String) (include_meta try_join : Bool)
    (entity : E) (msgs : List Message)
    (henv : configMissing env = false)
    (hres : ensure_joined client (parse_channel_identifier channel) try_join = .ok entity)
    (hhist : client.history entity = msgs.map .msg) :
    export_channel_messages env client channel separator include_meta try_join =
      ⟨.ok ((msgs.filter exportable).length), true, true, true,
        some (renderAll include_meta separator msgs), true⟩ := by
  simp [export_channel_messages, henv, hres, hhist, runLoop_msgs]

theorem export_stream_fail {E : Type} (env : Env) (client : Client E)
    (channel separator : String) (include_meta try_join : Bool)
    (entity : E) (msgs : List Message) (err : String) (rest : List StreamItem)
    (henv : configMissing env = false)
    (hres : ensure_joined client (parse_channel_identifier channel) try_join = .ok entity)
    (hhist : client.history entity = msgs.map .msg ++ .fail err :: rest) :
    export_channel_messages env client channel separator include_meta try_join =
      ⟨.error (.streamError err), true, true, true,
        some (renderAll include_meta separator msgs), true⟩ := by
  simp [export_channel_messages, henv, hres, hhist, runLoop_fail]

/-- Claim C1: for every finite input message stream, the export pipeline
writes to the output file exactly those messages whose body is non-empty
or, failing that, whose caption is present and non-empty, in the same
relative order as received (the filtered, order-preserving `renderAll`);
messages with neither contribute nothing, do not increment the counter
and do not touch the sink; the final reported count equals the number of
messages written. -/
theorem claim_C1_export_exact {E : Type} (env : Env) (client : Client E)
    (channel separator : String) (include_meta try_join : Bool)
    (entity : E) (msgs : List Message)
    (henv : configMissing env = false)
    (hres : ensure_joined client (parse_channel_identifier channel) try_join = .ok entity)
    (hhist : client.history entity = msgs.map .msg) :
    (export_channel_messages env client channel separator include_meta try_join =
      ⟨.ok ((msgs.filter exportable).length), true, true, true,
        some (String.join ((msgs.filter exportable).map (record include_meta separator))),
        true⟩) ∧
    (∀ m : Message,
      exportable m = true ↔ m.body.getD "" ≠ "" ∨ ∃ c, m.caption = some c ∧ c ≠ "") := by
  exact ⟨export_ok env client channel separator include_meta try_join entity msgs
    henv hres hhist, fun m => exportable_iff m⟩

theorem claim_C1_export_exact_witness :
    export_channel_messages (E := Unit) ⟨1, some "h"⟩
      ⟨fun _ => .ok (), fun _ => .joined,
        fun _ => List.map StreamItem.msg
          [⟨1, "2024-01-01T00:00:00", some "hello", none⟩,
           ⟨2, "2024-01-02T00:00:00", none, some "pic caption"⟩,
           ⟨3, "2024-01-03T00:00:00", some "", some ""⟩,
           ⟨4, "2024-01-04T00:00:00", none, none⟩]⟩
      "chan" "\n\n" false false =
      ⟨.ok 2, true, true, true, some "hello\n\npic caption\n\n", true⟩ := by
  have h := claim_C1_export_exact (E := Unit) ⟨1, some "h"⟩
    ⟨fun _ => .ok (), fun _ => .joined,
      fun _ => List.map StreamItem.msg
        [⟨1, "2024-01-01T00:00:00", some "hello", none⟩,
         ⟨2, "2024-01-02T00:00:00", none, some "pic caption"⟩,
         ⟨3, "2024-01-03T00:00:00", some "", some ""⟩,
         ⟨4, "2024-01-04T00:00:00", none, none⟩]⟩
    "chan" "\n\n" false false ()
    [⟨1, "2024-01-01T00:00:00", some "hello", none⟩,
     ⟨2, "2024-01-02T00:00:00", none, some "pic caption"⟩,
     ⟨3, "2024-01-03T00:00:00", some "", some ""⟩,
     ⟨4, "2024-01-04T00:00:00", none, none⟩]
    (by decide) rfl rfl
  rw [h.1]
  rfl

/-- Claim C2: if the history stream raises after exactly the messages of
`msgs` have been streamed, the run terminates with the propagated fatal
streaming error; the output file holds exactly the records already
written, in order; and the sink is closed on that exit path. -/
theorem claim_C2_stream_failure_partial_file {E : Type} (env : Env)
    (client : Client E) (channel separator : String)
    (include_meta try_join : Bool) (entity : E) (msgs : List Message)
    (err : String) (rest : List StreamItem)
    (henv : configMissing env = false)
    (hres : ensure_joined client (parse_channel_identifier channel) try_join = .ok entity)
    (hhist : client.history entity = msgs.map .msg ++ .fail err :: rest) :
    export_channel_messages env client channel separator include_meta try_join =
      ⟨.error (.streamError err), true, true, true,
        some (String.join ((msgs.filter exportable).map (record include_meta separator))),
        true⟩ := by
  exact export_stream_fail env client channel separator include_meta try_join
    entity msgs err rest henv hres hhist

theorem claim_C2_stream_failure_partial_file_witness :
    export_channel_messages (E := Unit) ⟨1, some "h"⟩
      ⟨fun _ => .ok (), fun _ => .joined,
        fun _ => List.map StreamItem.msg
          [⟨1, "d1", some "a", none⟩, ⟨2, "d2", some "b", none⟩,
           ⟨3, "d3", some "c", none⟩] ++
          .fail "transport failure" ::
            List.map StreamItem.msg
              [⟨4, "d4", some "x", none⟩, ⟨5, "d5", some "y", none⟩,
               ⟨6, "d6", some "z", none⟩, ⟨7, "d7", some "p", none⟩,
               ⟨8, "d8", some "q", none⟩, ⟨9, "d9", some "r", none⟩,
               ⟨10, "d10", some "s", none⟩]⟩
      "chan" "\n\n" false false =
      ⟨.error (.streamError "transport failure"), true, true, true,
        some "a\n\nb\n\nc\n\n", true⟩ := by
  have h := claim_C2_stream_failure_partial_file (E := Unit) ⟨1, some "h"⟩
    ⟨fun _ => .ok (), fun _ => .joined,
      fun _ => List.map StreamItem.msg
        [⟨1, "d1", some "a", none⟩, ⟨2, "d2", some "b", none⟩,
         ⟨3, "d3", some "c", none⟩] ++
        .fail "transport failure" ::
          List.map StreamItem.msg
            [⟨4, "d4", some "x", none⟩, ⟨5, "d5", some "y", none⟩,
             ⟨6, "d6", some "z", none⟩, ⟨7, "d7", some "p", none⟩,
             ⟨8, "d8", some "q", none⟩, ⟨9, "d9", some "r", none⟩,
             ⟨10, "d10", some "s", none⟩]⟩
    "chan" "\n\n" false false ()
    [⟨1, "d1", some "a", none⟩, ⟨2, "d2", some "b", none⟩,
     ⟨3, "d3", some "c", none⟩]
    "transport failure"
    (List.map StreamItem.msg
      [⟨4, "d4", some "x", none⟩, ⟨5, "d5", some "y", none⟩,
       ⟨6, "d6", some "z", none⟩, ⟨7, "d7", some "p", none⟩,
       ⟨8, "d8", some "q", none⟩, ⟨9, "d9", some "r", none⟩,
       ⟨10, "d10", some "s", none⟩])
    (by decide) rfl rfl
  rw [h]
  rfl

theorem dropWhile_eq_self_of_pyStripL {l : List Char} (h : pyStripL l = l) :
    l.dropWhile pyIsSpace = l := by
  have hsub : List.Sublist (l.dropWhile pyIsSpace) l := (List.dropWhile_suffix pyIsSpace).sublist
  refine hsub.eq_of_length ?_
  have h1 : (pyStripL l).length = l.length := congrArg List.length h
  have h2 : (pyStripL l).length ≤ (l.dropWhile pyIsSpace).length := by
    unfold pyStripL
    rw [List.length_reverse]
    calc ((l.dropWhile pyIsSpace).reverse.dropWhile pyIsSpace).length
        ≤ (l.dropWhile pyIsSpace).reverse.length :=
          ((List.dropWhile_suffix pyIsSpace).sublist).length_le
      _ = (l.dropWhile pyIsSpace).length := List.length_reverse _
  have h3 : (l.dropWhile pyIsSpace).length ≤ l.length := hsub.length_le
  omega

theorem reverse_dropWhile_eq_self_of_pyStripL {l : List Char} (h : pyStripL l = l) :
    l.reverse.dropWhile pyIsSpace = l.reverse := by
  have hd : l.dropWhile pyIsSpace = l := dropWhile_eq_self_of_pyStripL h
  have h' : (l.reverse.dropWhile pyIsSpace).reverse = l := by
    unfold pyStripL at h
    rwa [hd] at h
  have := congrArg List.reverse h'
  rwa [List.reverse_reverse] at this

theorem pyStripL_eq_self_of {l : List Char}
    (h1 : l.dropWhile pyIsSpace = l)
    (h2 : l.reverse.dropWhile pyIsSpace = l.reverse) :
    pyStripL l = l := by
  unfold pyStripL
  rw [h1, h2, List.reverse_reverse]

theorem pyStripL_cons_of_neg {c : Char} (hc : pyIsSpace c = false)
    {l : List Char} (hl : l ≠ [])
    (h2 : l.reverse.dropWhile pyIsSpace = l.reverse) :
    pyStripL (c :: l) = c :: l := by
  apply pyStripL_eq_self_of
  · exact List.dropWhile_cons_of_neg (by simp [hc])
  · rw [List.reverse_cons, List.dropWhile_append, h2]
    simp [hl]

theorem pyStripL_append_of {P : List Char} (hP : P.dropWhile pyIsSpace = P)
    (hPne : P ≠ []) {l : List Char} (hl : l ≠ [])
    (h2 : l.reverse.dropWhile pyIsSpace = l.reverse) :
    pyStripL (P ++ l) = P ++ l := by
  apply pyStripL_eq_self_of
  · rw [List.dropWhile_append, hP]
    simp [hPne]
  · rw [List.reverse_append, List.dropWhile_append, h2]
    simp [hl]

theorem tmeAlt_of_head_ne {a b : Char} (h : (a == b) = false)
    (pre raw : List Char) : tmeAlt (a :: pre) (b :: raw) = none := by
  unfold tmeAlt
  rw [if_neg]
  intro hpre
  rw [List.isPrefixOf_iff_prefix] at hpre
  rcases hpre with ⟨t, ht⟩
  rw [List.cons_append] at ht
  injection ht with h1 _
  rw [h1] at h
  simp at h

theorem tmeAlt_self_append {P l : List Char} (hl : l ≠ [])
    (hnl : ∀ c ∈ l, (!(c == '\n')) = true) :
    tmeAlt P (P ++ l) = some l := by
  unfold tmeAlt
  rw [if_pos (List.isPrefixOf_iff_prefix.mpr (List.prefix_append P l))]
  rw [List.drop_left, List.takeWhile_eq_self_iff.mpr hnl]
  simp [hl]

theorem parseL_no_match {r : List Char} (hs : pyStripL r = r)
    (htme : tmeMatchL r = none) (hat : r.head? ≠ some '@') :
    parseChannelIdentifierL r = r := by
  unfold parseChannelIdentifierL
  simp only [hs, htme]
  simp [hat]

theorem parseL_at (t : List Char) (hs : pyStripL ('@' :: t) = '@' :: t)
    (htme : tmeMatchL ('@' :: t) = none) :
    parseChannelIdentifierL ('@' :: t) = t := by
  unfold parseChannelIdentifierL
  simp only [hs, htme]
  simp

theorem parseL_url {r g : List Char} (hs : pyStripL r = r)
    (htme : tmeMatchL r = some g) :
    parseChannelIdentifierL r = g := by
  unfold parseChannelIdentifierL
  simp only [hs, htme]

/-- The four surface forms of a clean channel name all normalize to the
bare name.  `name` must be trimmed, nonempty, not begin with `@`,
contain no newline, and not itself match the t.me URL pattern. -/
theorem parse_four_forms (name : String)
    (hstrip : pyStrip name = name)
    (hne : name ≠ "")
    (hat : name.data.head? ≠ some '@')
    (hnl : '\n' ∉ name.data)
    (htme : tmeMatchL name.data = none) :
    parse_channel_identifier name = name ∧
    parse_channel_identifier ("@" ++ name) = name ∧
    parse_channel_identifier ("https://t.me/" ++ name) = name ∧
    parse_channel_identifier ("http://t.me/" ++ name) = name := by
  have hdata : name.data ≠ [] := fun h => hne (String.ext h)
  have hsl : pyStripL name.data = name.data := congrArg String.data hstrip
  have hrd : name.data.reverse.dropWhile pyIsSpace = name.data.reverse :=
    reverse_dropWhile_eq_self_of_pyStripL hsl
  have hnl' : ∀ c ∈ name.data, (!(c == '\n')) = true := by
    intro c hc
    have : c ≠ '\n' := fun h => hnl (h ▸ hc)
    simp [this]
  refine ⟨?_, ?_, ?_, ?_⟩
  · exact String.ext (parseL_no_match hsl htme hat)
  · have hdat : ("@" ++ name).data = '@' :: name.data := rfl
    have hs2 : pyStripL ('@' :: name.data) = '@' :: name.data :=
      pyStripL_cons_of_neg (by decide) hdata hrd
    have t1 : tmeAlt "https://t.me/".data ('@' :: name.data) = none := by
      rw [show "https://t.me/".data = 'h' :: "ttps://t.me/".data from rfl]
      exact tmeAlt_of_head_ne (by decide) _ _
    have t2 : tmeAlt "http://t.me/".data ('@' :: name.data) = none := by
      rw [show "http://t.me/".data = 'h' :: "ttp://t.me/".data from rfl]
      exact tmeAlt_of_head_ne (by decide) _ _
    have htme2 : tmeMatchL ('@' :: name.data) = none := by
      unfold tmeMatchL
      rw [t1, t2]
    apply String.ext
    show parseChannelIdentifierL ('@' :: name.data) = name.data
    exact parseL_at _ hs2 htme2
  · have hs3 : pyStripL ("https://t.me/".data ++ name.data) =
        "https://t.me/".data ++ name.data :=
      pyStripL_append_of (by decide) (by decide) hdata hrd
    have t1 : tmeAlt "https://t.me/".data ("https://t.me/".data ++ name.data) =
        some name.data := tmeAlt_self_append hdata hnl'
    have htme3 : tmeMatchL ("https://t.me/".data ++ name.data) = some name.data := by
      unfold tmeMatchL
      rw [t1]
    apply String.ext
    show parseChannelIdentifierL ("https://t.me/".data ++ name.data) = name.data
    exact parseL_url hs3 htme3
  · have hs4 : pyStripL ("http://t.me/".data ++ name.data) =
        "http://t.me/".data ++ name.data :=
      pyStripL_append_of (by decide) (by decide) hdata hrd
    have t1 : tmeAlt "https://t.me/".data ("http://t.me/".data ++ name.data) = none := by
      unfold tmeAlt
      rw [if_neg]
      intro hpre
      rw [List.isPrefixOf_iff_prefix] at hpre
      rcases hpre with ⟨t, ht⟩
      rw [show "https://t.me/".data =
        ['h','t','t','p','s',':','/','/','t','.','m','e','/'] from rfl] at ht
      rw [show "http://t.me/".data =
        ['h','t','t','p',':','/','/','t','.','m','e','/'] from rfl] at ht
      simp only [List.cons_append, List.nil_append] at ht
      injection ht with e1 ht
      injection ht with e2 ht
      injection ht with e3 ht
      injection ht with e4 ht
      injection ht with e5 _
      exact absurd e5 (by decide)
    have t2 : tmeAlt "http://t.me/".data ("http://t.me/".data ++ name.data) =
        some name.data := tmeAlt_self_append hdata hnl'
    have htme4 : tmeMatchL ("http://t.me/".data ++ name.data) = some name.data := by
      unfold tmeMatchL
      rw [t1, t2]
    apply String.ext
    show parseChannelIdentifierL ("http://t.me/".data ++ name.data) = name.data
    exact parseL_url hs4 htme4

theorem pyStripL_idem (l : List Char) : pyStripL (pyStripL l) = pyStripL l := by
  apply pyStripL_eq_self_of
  · rw [List.dropWhile_eq_self_iff]
    intro hl
    have hpre : List.IsPrefix (pyStripL l) (l.dropWhile pyIsSpace) :=
      List.rdropWhile_prefix pyIsSpace (l.dropWhile pyIsSpace)
    have hlen : 0 < (l.dropWhile pyIsSpace).length := lt_of_lt_of_le hl hpre.length_le
    have hget := hpre.getElem (n := 0) hl
    have hnot := List.dropWhile_get_zero_not l hlen (p := pyIsSpace)
    simp only [List.get_eq_getElem] at hnot ⊢
    rw [hget]
    exact hnot
  · rw [show pyStripL l =
      ((l.dropWhile pyIsSpace).reverse.dropWhile pyIsSpace).reverse from rfl,
      List.reverse_reverse]
    exact List.dropWhile_idempotent _ _

theorem parseL_of_strip_no_match {raw : List Char}
    (htme : tmeMatchL (pyStripL raw) = none)
    (hat : (pyStripL raw).head? ≠ some '@') :
    parseChannelIdentifierL raw = pyStripL raw := by
  unfold parseChannelIdentifierL
  simp only [htme]
  simp [hat]

/-- An occurrence of `pat` as a contiguous run inside a character list. -/
def containsSeq (pat : List Char) : List Char → Bool
  | [] => pat.isPrefixOf []
  | c :: rest => pat.isPrefixOf (c :: rest) || containsSeq pat rest

/-- A URL scheme occurring anywhere in the string: `http://` or
`https://` as a contiguous substring. -/
def hasURLScheme (s : String) : Bool :=
  containsSeq "http://".data s.data || containsSeq "https://".data s.data

/-- Claim C3 counterexample: for the channel name `"@y"`, the four
surface forms do not all normalize to `"@y"`: already the bare form
normalizes to `"y"`. -/
theorem claim_C3_counterexample :
    ¬ (parse_channel_identifier "@y" = "@y" ∧
       parse_channel_identifier "@@y" = "@y" ∧
       parse_channel_identifier "https://t.me/@y" = "@y" ∧
       parse_channel_identifier "http://t.me/@y" = "@y") := by
  decide

/-- Claim C3 (amended): for every channel name that is trimmed,
nonempty, does not begin with `@`, contains no newline, and does not
itself match the t.me URL pattern, the normalizer maps all four surface
forms — `name`, `@name`, `https://t.me/name`, `http://t.me/name` — to
the identical normalized string `name`, applying the rules in
first-match-wins order. -/
theorem claim_C3_four_forms_normalize (name : String)
    (hstrip : pyStrip name = name) (hne : name ≠ "")
    (hat : name.data.head? ≠ some '@') (hnl : '\n' ∉ name.data)
    (htme : tmeMatchL name.data = none) :
    parse_channel_identifier name = name ∧
    parse_channel_identifier ("@" ++ name) = name ∧
    parse_channel_identifier ("https://t.me/" ++ name) = name ∧
    parse_channel_identifier ("http://t.me/" ++ name) = name :=
  parse_four_forms name hstrip hne hat hnl htme

theorem claim_C3_four_forms_normalize_witness :
    parse_channel_identifier "exampleChan" = "exampleChan" ∧
    parse_channel_identifier ("@" ++ "exampleChan") = "exampleChan" ∧
    parse_channel_identifier ("https://t.me/" ++ "exampleChan") = "exampleChan" ∧
    parse_channel_identifier ("http://t.me/" ++ "exampleChan") = "exampleChan" :=
  claim_C3_four_forms_normalize "exampleChan" (by decide) (by decide) (by decide)
    (by decide) (by decide)

/-- Claim C4 counterexample: the normalizer's result can begin with `@`
(input `"@@x"` yields `"@x"`) and can contain a URL scheme (input
`"@https://t.me/x"` yields `"https://t.me/x"`). -/
theorem claim_C4_counterexample :
    (parse_channel_identifier "@@x").data.head? = some '@' ∧
    hasURLScheme (parse_channel_identifier "@https://t.me/x") = true := by
  decide

/-- Claim C4 (amended): for channel names that are trimmed, nonempty, do
not begin with `@`, contain no newline, do not match the t.me URL
pattern and contain no URL scheme, the normalizer's result on each of
the four accepted surface forms never contains a URL scheme and never
has a leading `@`.  (Unrestricted, the invariant fails: the regular
expression's captured path and the `@`-rule's remainder are returned
verbatim.) -/
theorem claim_C4_no_scheme_no_leading_at (name : String)
    (hstrip : pyStrip name = name) (hne : name ≠ "")
    (hat : name.data.head? ≠ some '@') (hnl : '\n' ∉ name.data)
    (htme : tmeMatchL name.data = none)
    (hscheme : hasURLScheme name = false) :
    ∀ s ∈ [name, "@" ++ name, "https://t.me/" ++ name, "http://t.me/" ++ name],
      hasURLScheme (parse_channel_identifier s) = false ∧
      (parse_channel_identifier s).data.head? ≠ some '@' := by
  obtain ⟨h1, h2, h3, h4⟩ := parse_four_forms name hstrip hne hat hnl htme
  intro s hs
  simp only [List.mem_cons, List.not_mem_nil, or_false] at hs
  rcases hs with rfl | rfl | rfl | rfl
  · rw [h1]; exact ⟨hscheme, hat⟩
  · rw [h2]; exact ⟨hscheme, hat⟩
  · rw [h3]; exact ⟨hscheme, hat⟩
  · rw [h4]; exact ⟨hscheme, hat⟩

theorem claim_C4_no_scheme_no_leading_at_witness :
    hasURLScheme (parse_channel_identifier ("@" ++ "exampleChan")) = false ∧
    (parse_channel_identifier ("@" ++ "exampleChan")).data.head? ≠ some '@' :=
  claim_C4_no_scheme_no_leading_at "exampleChan" (by decide) (by decide)
    (by decide) (by decide) (by decide) (by decide) ("@" ++ "exampleChan")
    (by simp)

/-- Claim C5 counterexample: the normalizer is not idempotent: the URL
form with an `@`-prefixed path normalizes to `"@x"`, which a second
application collapses to `"x"`. -/
theorem claim_C5_counterexample :
    parse_channel_identifier (parse_channel_identifier "https://t.me/@x") ≠
      parse_channel_identifier "https://t.me/@x" := by
  decide

/-- Claim C5 (amended): for every input whose trimmed form matches
neither the t.me URL pattern nor the leading-`@` pattern, the normalizer
returns the trimmed input unchanged, and on such inputs it is
idempotent.  (Full idempotence fails: a URL path extracted by the first
rule can itself match a pattern; see the counterexample.) -/
theorem claim_C5_trim_unchanged_and_idempotent (x : String)
    (htme : tmeMatchL (pyStrip x).data = none)
    (hat : (pyStrip x).data.head? ≠ some '@') :
    parse_channel_identifier x = pyStrip x ∧
    parse_channel_identifier (parse_channel_identifier x) =
      parse_channel_identifier x := by
  have hidem : pyStripL (pyStripL x.data) = pyStripL x.data := pyStripL_idem x.data
  have h1 : parseChannelIdentifierL x.data = pyStripL x.data :=
    parseL_of_strip_no_match htme hat
  constructor
  · exact String.ext h1
  · apply String.ext
    show parseChannelIdentifierL (parseChannelIdentifierL x.data) =
      parseChannelIdentifierL x.data
    rw [h1]
    exact parseL_no_match hidem htme hat

theorem claim_C5_trim_unchanged_and_idempotent_witness :
    parse_channel_identifier " plainName " = pyStrip " plainName " ∧
    parse_channel_identifier (parse_channel_identifier " plainName ") =
      parse_channel_identifier " plainName " :=
  claim_C5_trim_unchanged_and_idempotent " plainName " (by decide) (by decide)


/-- Claim C6: when attemptJoin is true and entity resolution succeeds,
resolve returns the resolved handle and no error propagates regardless
of the outcome of the join attempt: an already-participant condition is
treated as success, and every other join failure is swallowed and never
propagated. -/
theorem claim_C6_join_never_propagates {E : Type} (client : Client E)
    (channel : String) (entity : E)
    (h : client.getEntity channel = .ok entity) :
    ensure_joined client channel true = .ok entity := by
  unfold ensure_joined
  rw [h]
  cases hj : client.joinResult entity <;> simp [hj]

theorem claim_C6_join_never_propagates_witness :
    ensure_joined (E := Unit)
      ⟨fun _ => .ok (), fun _ => .alreadyParticipant, fun _ => []⟩
      "chan" true = .ok () ∧
    ensure_joined (E := Unit)
      ⟨fun _ => .ok (), fun _ => .failure "invite required", fun _ => []⟩
      "chan" true = .ok () :=
  ⟨claim_C6_join_never_propagates
      ⟨fun _ => .ok (), fun _ => .alreadyParticipant, fun _ => []⟩ "chan" () rfl,
   claim_C6_join_never_propagates
      ⟨fun _ => .ok (), fun _ => .failure "invite required", fun _ => []⟩ "chan" () rfl⟩

/-- Claim C7: configuration errors (missing credentials) and resolution
errors fail fast before any output side effects: a configuration error
precedes all directory, network and file activity, and a resolution
error precedes creation of the output sink, so in both cases no partial
output exists (the file is never opened or truncated). -/
theorem claim_C7_fail_fast_before_output {E : Type} (env : Env)
    (client : Client E) (channel separator : String)
    (include_meta try_join : Bool) :
    (configMissing env = true →
      export_channel_messages env client channel separator include_meta try_join =
        ⟨.error .configError, false, false, false, none, false⟩) ∧
    (∀ e, configMissing env = false →
      ensure_joined client (parse_channel_identifier channel) try_join = .error e →
      export_channel_messages env client channel separator include_meta try_join =
        ⟨.error (.resolutionError e), true, true, false, none, false⟩) :=
  ⟨fun h => export_config_missing env client channel separator include_meta try_join h,
   fun e henv hres =>
    export_resolution_error env client channel separator include_meta try_join e henv hres⟩

theorem claim_C7_fail_fast_before_output_witness :
    (export_channel_messages (E := Unit) ⟨0, none⟩
      ⟨fun _ => .ok (), fun _ => .joined, fun _ => []⟩ "c" "\n\n" false false =
      ⟨.error .configError, false, false, false, none, false⟩) ∧
    (export_channel_messages (E := Unit) ⟨1, some "h"⟩
      ⟨fun _ => .error "no such channel", fun _ => .joined, fun _ => []⟩
      "c" "\n\n" false false =
      ⟨.error (.resolutionError "no such channel"), true, true, false, none, false⟩) :=
  ⟨(claim_C7_fail_fast_before_output ⟨0, none⟩
      ⟨fun _ => .ok (), fun _ => .joined, fun _ => []⟩ "c" "\n\n" false false).1 rfl,
   (claim_C7_fail_fast_before_output ⟨1, some "h"⟩
      ⟨fun _ => .error "no such channel", fun _ => .joined, fun _ => []⟩
      "c" "\n\n" false false).2 "no such channel" rfl rfl⟩


/-- The lines of a character list, split at newline characters. -/
def splitLinesL : List Char → List (List Char)
  | [] => [[]]
  | c :: rest =>
    if c = '\n' then [] :: splitLinesL rest
    else
      match splitLinesL rest with
      | [] => [[c]]
      | l :: ls => (c :: l) :: ls

/-- The lines of a string. -/
def lines (s : String) : List String :=
  (splitLinesL s.data).map String.mk

theorem join_nil : String.join ([] : List String) = "" := rfl

/-- Claim C8 counterexample: with includeMeta false, a line of the
metadata form can still appear in the output: a message whose text is
itself such a line is written verbatim, so the exported file contains a
line identical to the metadata line of a message with id 1 and an
ISO-8601 date. -/
theorem claim_C8_counterexample :
    (lines ((export_channel_messages (E := Unit) ⟨1, some "h"⟩
        ⟨fun _ => .ok (), fun _ => .joined,
          fun _ => [.msg ⟨7, "2024-01-02T00:00:00",
            some "[id:1 | date:2024-01-01T00:00:00]", none⟩]⟩
        "chan" "\n\n" false false).file.getD "")).contains
      (metaLine ⟨1, "2024-01-01T00:00:00", none, none⟩) = true := by
  decide

/-- Claim C8 (amended): when includeMeta is true, every exported
message's record begins with the metadata line `[id:<id> | date:<date>]`
followed by a newline, written immediately before the message text; when
includeMeta is false the pipeline writes no metadata line — each record
is exactly the message text followed by the separator (the text itself
may still contain a metadata-shaped line; see the counterexample). -/
theorem claim_C8_meta_line_iff_include_meta {E : Type} (env : Env)
    (client : Client E) (channel separator : String) (try_join : Bool)
    (entity : E) (msgs : List Message)
    (henv : configMissing env = false)
    (hres : ensure_joined client (parse_channel_identifier channel) try_join = .ok entity)
    (hhist : client.history entity = msgs.map .msg) :
    (export_channel_messages env client channel separator true try_join).file =
      some (String.join ((msgs.filter exportable).map
        (fun m => metaLine m ++ "\n" ++ (messageText m ++ separator)))) ∧
    (export_channel_messages env client channel separator false try_join).file =
      some (String.join ((msgs.filter exportable).map
        (fun m => messageText m ++ separator))) := by
  have e1 : record true separator =
      fun m => metaLine m ++ "\n" ++ (messageText m ++ separator) := by
    funext m
    simp [record, String.append_assoc]
  have e2 : record false separator = fun m => messageText m ++ separator := by
    funext m
    simp [record]
  constructor
  · rw [export_ok env client channel separator true try_join entity msgs henv hres hhist]
    show some (renderAll true separator msgs) = _
    unfold renderAll
    rw [e1]
  · rw [export_ok env client channel separator false try_join entity msgs henv hres hhist]
    show some (renderAll false separator msgs) = _
    unfold renderAll
    rw [e2]

theorem claim_C8_meta_line_iff_include_meta_witness :
    (export_channel_messages (E := Unit) ⟨1, some "h"⟩
      ⟨fun _ => .ok (), fun _ => .joined,
        fun _ => [.msg ⟨5, "2024-03-01T00:00:00", some "hello", none⟩]⟩
      "chan" "\n\n" true false).file =
      some "[id:5 | date:2024-03-01T00:00:00]\nhello\n\n" ∧
    (export_channel_messages (E := Unit) ⟨1, some "h"⟩
      ⟨fun _ => .ok (), fun _ => .joined,
        fun _ => [.msg ⟨5, "2024-03-01T00:00:00", some "hello", none⟩]⟩
      "chan" "\n\n" false false).file = some "hello\n\n" := by
  have h := claim_C8_meta_line_iff_include_meta (E := Unit) ⟨1, some "h"⟩
    ⟨fun _ => .ok (), fun _ => .joined,
      fun _ => [.msg ⟨5, "2024-03-01T00:00:00", some "hello", none⟩]⟩
    "chan" "\n\n" false () [⟨5, "2024-03-01T00:00:00", some "hello", none⟩]
    (by decide) rfl rfl
  exact ⟨h.1.trans (by decide), h.2.trans (by decide)⟩

/-- Claim C9: every exported record is written as its body followed by
the configured separator verbatim — the output file is the
concatenation of the records, and each record is literally
`(metadata?) ++ text ++ separator`, with no trimming or escaping of the
separator or of the message text. -/
theorem claim_C9_separator_verbatim {E : Type} (env : Env)
    (client : Client E) (channel separator : String)
    (include_meta try_join : Bool) (entity : E) (msgs : List Message)
    (henv : configMissing env = false)
    (hres : ensure_joined client (parse_channel_identifier channel) try_join = .ok entity)
    (hhist : client.history entity = msgs.map .msg) :
    (export_channel_messages env client channel separator include_meta try_join).file =
      some (String.join ((msgs.filter exportable).map (record include_meta separator))) ∧
    ∀ m ∈ msgs.filter exportable,
      ∃ body, record include_meta separator m = body ++ separator ∧
        body = (if include_meta then metaLine m ++ "\n" else "") ++ messageText m := by
  constructor
  · rw [export_ok env client channel separator include_meta try_join entity msgs henv hres hhist]
    rfl
  · intro m _
    exact ⟨(if include_meta then metaLine m ++ "\n" else "") ++ messageText m, rfl, rfl⟩

theorem claim_C9_separator_verbatim_witness :
    (export_channel_messages (E := Unit) ⟨1, some "h"⟩
      ⟨fun _ => .ok (), fun _ => .joined,
        fun _ => [.msg ⟨5, "d5", some "hello", none⟩]⟩
      "chan" "---\n" false false).file = some "hello---\n" ∧
    record false "---\n" ⟨5, "d5", some "hello", none⟩ = "hello" ++ "---\n" := by
  have h := claim_C9_separator_verbatim (E := Unit) ⟨1, some "h"⟩
    ⟨fun _ => .ok (), fun _ => .joined,
      fun _ => [.msg ⟨5, "d5", some "hello", none⟩]⟩
    "chan" "---\n" false false () [⟨5, "d5", some "hello", none⟩]
    (by decide) rfl rfl
  obtain ⟨body, hb1, hb2⟩ := h.2 ⟨5, "d5", some "hello", none⟩ (by decide)
  refine ⟨h.1.trans (by decide), ?_⟩
  rw [hb1, hb2]
  decide

theorem join_records_ends_with_sep (im : Bool) (sep : String) :
    ∀ l : List Message, l ≠ [] →
      ∃ pre, String.join (l.map (record im sep)) = pre ++ sep := by
  intro l
  induction l with
  | nil => intro h; exact absurd rfl h
  | cons m rest ih =>
    intro _
    cases rest with
    | nil =>
      refine ⟨(if im then metaLine m ++ "\n" else "") ++ messageText m, ?_⟩
      rw [List.map_cons, List.map_nil, join_cons, join_nil, String.append_empty]
      rfl
    | cons m2 rest2 =>
      obtain ⟨pre, hpre⟩ := ih (by simp)
      refine ⟨record im sep m ++ pre, ?_⟩
      rw [List.map_cons, join_cons, hpre, String.append_assoc]

/-- Claim C10: on normal completion the output file's content equals
exactly the concatenation, in stream order, of one record per exported
message; the file is empty when the exported count is zero, and ends
with the separator whenever the count is positive — no trailing content
after the last record and no header before the first. -/
theorem claim_C10_file_concatenation {E : Type} (env : Env)
    (client : Client E) (channel separator : String)
    (include_meta try_join : Bool) (entity : E) (msgs : List Message)
    (henv : configMissing env = false)
    (hres : ensure_joined client (parse_channel_identifier channel) try_join = .ok entity)
    (hhist : client.history entity = msgs.map .msg) :
    (export_channel_messages env client channel separator include_meta try_join =
      ⟨.ok ((msgs.filter exportable).length), true, true, true,
        some (String.join ((msgs.filter exportable).map (record include_meta separator))),
        true⟩) ∧
    ((msgs.filter exportable).length = 0 →
      (export_channel_messages env client channel separator include_meta try_join).file =
        some "") ∧
    (0 < (msgs.filter exportable).length →
      ∃ pre,
        (export_channel_messages env client channel separator include_meta try_join).file =
          some (pre ++ separator)) := by
  have hmain := export_ok env client channel separator include_meta try_join
    entity msgs henv hres hhist
  refine ⟨hmain, ?_, ?_⟩
  · intro h0
    rw [hmain]
    show some (renderAll include_meta separator msgs) = some ""
    unfold renderAll
    rw [List.length_eq_zero.mp h0]
    rfl
  · intro hpos
    have hne : msgs.filter exportable ≠ [] := by
      intro h
      rw [h] at hpos
      simp at hpos
    obtain ⟨pre, hpre⟩ := join_records_ends_with_sep include_meta separator
      (msgs.filter exportable) hne
    refine ⟨pre, ?_⟩
    rw [hmain]
    show some (renderAll include_meta separator msgs) = _
    unfold renderAll
    rw [hpre]

theorem claim_C10_file_concatenation_witness :
    (export_channel_messages (E := Unit) ⟨1, some "h"⟩
      ⟨fun _ => .ok (), fun _ => .joined,
        fun _ => [.msg ⟨1, "d1", some "a", none⟩, .msg ⟨2, "d2", none, none⟩]⟩
      "chan" "\n\n" false false).file = some ("a" ++ "\n\n") ∧
    (export_channel_messages (E := Unit) ⟨1, some "h"⟩
      ⟨fun _ => .ok (), fun _ => .joined,
        fun _ => [.msg ⟨1, "d1", none, none⟩]⟩
      "chan" "\n\n" false false).file = some "" := by
  have h1 := claim_C10_file_concatenation (E := Unit) ⟨1, some "h"⟩
    ⟨fun _ => .ok (), fun _ => .joined,
      fun _ => [.msg ⟨1, "d1", some "a", none⟩, .msg ⟨2, "d2", none, none⟩]⟩
    "chan" "\n\n" false false () [⟨1, "d1", some "a", none⟩, ⟨2, "d2", none, none⟩]
    (by decide) rfl rfl
  have h2 := claim_C10_file_concatenation (E := Unit) ⟨1, some "h"⟩
    ⟨fun _ => .ok (), fun _ => .joined, fun _ => [.msg ⟨1, "d1", none, none⟩]⟩
    "chan" "\n\n" false false () [⟨1, "d1", none, none⟩]
    (by decide) rfl rfl
  exact ⟨(congrArg RunResult.file h1.1).trans (by decide), h2.2.1 (by decide)⟩

end TelegramExport
